import Mathlib

set_option maxRecDepth 100000

/-!
Verification of the ProxmoxMCP-Extended authentication and authorization core.

This file gives a shallow embedding, in Lean 4, of the token-validation and
RBAC enforcement layer of the repository:

* `src/proxmox_mcp/auth/utils.py`      — `hash_sha512`
* `src/proxmox_mcp/auth/models.py`     — `ProxmoxMCPToken` and its scope/expiry methods
* `src/proxmox_mcp/auth/providers.py`  — `YartuMCPAuthProvider.load_access_token`,
                                          `YartuMCPAuthProvider.get_required_scopes`
* `src/proxmox_mcp/auth/middleware.py` — `ScopeRBAC` (`_get_default_tool_scope_mapping`,
                                          `_get_tool_required_scopes`, `on_list_tools`,
                                          `on_call_tool`) and `AuditMiddleware`
* `examples/django_models.py`          — the `ApplicationToken` record shape
* `src/proxmox_mcp/server_http.py`     — `_setup_middleware` registration order

Machine integers are modelled as `Nat` with explicit `% 2 ^ 64` where 64-bit
overflow matters; timestamps (Python floats compared with `<=` / `>` and shifted
by whole seconds) are modelled as `Int`; Python `None` becomes `Option`;
Python sets of scope strings become `Finset String`.

Theorems at the end settle the frozen claims about this layer.
-/

namespace ProxmoxMCP

/-! ## SHA-512 (FIPS 180-4), as invoked by `hashlib.sha512(...).hexdigest()`

`auth/utils.py` defines `hash_sha512(value) = hashlib.sha512(value.encode('utf-8')).hexdigest()`.
The hash itself lives in CPython's `hashlib`; it is embedded here directly from
the SHA-512 standard that `hashlib.sha512` implements.  All word arithmetic is
on `Nat` reduced modulo `2 ^ 64`. -/

/-- Reduce to a 64-bit word. -/
def w64 (x : Nat) : Nat := x % 2 ^ 64

/-- Rotate a 64-bit word right by `n` bits. -/
def rotr64 (n x : Nat) : Nat := w64 ((x >>> n) ||| (x <<< (64 - n)))

/-- Bitwise complement within 64 bits. -/
def not64 (x : Nat) : Nat := x ^^^ (2 ^ 64 - 1)

/-- SHA-512 `Ch` function. -/
def sha512Ch (x y z : Nat) : Nat := (x &&& y) ^^^ (not64 x &&& z)

/-- SHA-512 `Maj` function. -/
def sha512Maj (x y z : Nat) : Nat := (x &&& y) ^^^ (x &&& z) ^^^ (y &&& z)

/-- SHA-512 big Σ₀. -/
def bigSigma0 (x : Nat) : Nat := rotr64 28 x ^^^ rotr64 34 x ^^^ rotr64 39 x

/-- SHA-512 big Σ₁. -/
def bigSigma1 (x : Nat) : Nat := rotr64 14 x ^^^ rotr64 18 x ^^^ rotr64 41 x

/-- SHA-512 small σ₀. -/
def smallSigma0 (x : Nat) : Nat := rotr64 1 x ^^^ rotr64 8 x ^^^ (x >>> 7)

/-- SHA-512 small σ₁. -/
def smallSigma1 (x : Nat) : Nat := rotr64 19 x ^^^ rotr64 61 x ^^^ (x >>> 6)

/-- The 80 SHA-512 round constants (fractional parts of the cube roots of the
first 80 primes, FIPS 180-4 §4.2.3). -/
def sha512K : List Nat :=
  [4794697086780616226, 8158064640168781261, 13096744586834688815,
   16840607885511220156, 4131703408338449720, 6480981068601479193,
   10538285296894168987, 12329834152419229976, 15566598209576043074,
   1334009975649890238, 2608012711638119052, 6128411473006802146,
   8268148722764581231, 9286055187155687089, 11230858885718282805,
   13951009754708518548, 16472876342353939154, 17275323862435702243,
   1135362057144423861, 2597628984639134821, 3308224258029322869,
   5365058923640841347, 6679025012923562964, 8573033837759648693,
   10970295158949994411, 12119686244451234320, 12683024718118986047,
   13788192230050041572, 14330467153632333762, 15395433587784984357,
   489312712824947311, 1452737877330783856, 2861767655752347644,
   3322285676063803686, 5560940570517711597, 5996557281743188959,
   7280758554555802590, 8532644243296465576, 9350256976987008742,
   10552545826968843579, 11727347734174303076, 12113106623233404929,
   14000437183269869457, 14369950271660146224, 15101387698204529176,
   15463397548674623760, 17586052441742319658, 1182934255886127544,
   1847814050463011016, 2177327727835720531, 2830643537854262169,
   3796741975233480872, 4115178125766777443, 5681478168544905931,
   6601373596472566643, 7507060721942968483, 8399075790359081724,
   8693463985226723168, 9568029438360202098, 10144078919501101548,
   10430055236837252648, 11840083180663258601, 13761210420658862357,
   14299343276471374635, 14566680578165727644, 15097957966210449927,
   16922976911328602910, 17689382322260857208, 500013540394364858,
   748580250866718886, 1242879168328830382, 1977374033974150939,
   2944078676154940804, 3659926193048069267, 4368137639120453308,
   4836135668995329356, 5532061633213252278, 6448918945643986474,
   6902733635092675308, 7801388544844847127]

/-- Working state of the SHA-512 compression function: eight 64-bit words. -/
structure Sha512State where
  a : Nat
  b : Nat
  c : Nat
  d : Nat
  e : Nat
  f : Nat
  g : Nat
  h : Nat

/-- Initial hash value (fractional parts of the square roots of the first
8 primes, FIPS 180-4 §5.3.5). -/
def sha512H0 : Sha512State :=
  ⟨7640891576956012808, 13503953896175478587, 4354685564936845355,
   11912009170470909681, 5840696475078001361, 11170449401992604703,
   2270897969802886507, 6620516959819538809⟩

/-- A big-endian word from a list of bytes. -/
def beWord (bs : List Nat) : Nat := bs.foldl (fun acc b => acc * 256 + b) 0

/-- The sixteen 64-bit message words of one 128-byte block. -/
def blockWords (block : List Nat) : List Nat :=
  (List.range 16).map (fun i => beWord ((block.drop (8 * i)).take 8))

/-- Extend 16 message words to the 80-entry message schedule (§6.4.2 step 1). -/
def msgSchedule (ws : List Nat) : List Nat :=
  (List.range 64).foldl
    (fun w _ =>
      w ++ [w64 (smallSigma1 (w.getD (w.length - 2) 0) + w.getD (w.length - 7) 0 +
                 smallSigma0 (w.getD (w.length - 15) 0) + w.getD (w.length - 16) 0)])
    ws

/-- One SHA-512 round (§6.4.2 step 3). -/
def sha512Round (s : Sha512State) (kw : Nat × Nat) : Sha512State :=
  let t1 := w64 (s.h + bigSigma1 s.e + sha512Ch s.e s.f s.g + kw.1 + kw.2)
  let t2 := w64 (bigSigma0 s.a + sha512Maj s.a s.b s.c)
  ⟨w64 (t1 + t2), s.a, s.b, s.c, w64 (s.d + t1), s.e, s.f, s.g⟩

/-- Process one 128-byte block (§6.4.2). -/
def processBlock (s : Sha512State) (block : List Nat) : Sha512State :=
  let w := msgSchedule (blockWords block)
  let t := (sha512K.zip w).foldl sha512Round s
  ⟨w64 (s.a + t.a), w64 (s.b + t.b), w64 (s.c + t.c), w64 (s.d + t.d),
   w64 (s.e + t.e), w64 (s.f + t.f), w64 (s.g + t.g), w64 (s.h + t.h)⟩

/-- SHA-512 padding (§5.1.2): append `0x80`, zeros to 112 mod 128, then the
message bit length as a 16-byte big-endian integer. -/
def sha512Pad (msg : List Nat) : List Nat :=
  let len := msg.length
  let zeros := (128 + 112 - (len + 1) % 128) % 128
  let bitLen := (8 * len) % 2 ^ 128
  msg ++ [0x80] ++ List.replicate zeros 0 ++
    (List.range 16).map (fun i => bitLen / 2 ^ (8 * (15 - i)) % 256)

/-- Split a byte list into 128-byte blocks.  The first argument is fuel; it is
always called with enough fuel to consume the whole list. -/
def chunks128 : Nat → List Nat → List (List Nat)
  | 0, _ => []
  | _, [] => []
  | fuel + 1, l => l.take 128 :: chunks128 fuel (l.drop 128)

/-- Big-endian bytes of a 64-bit word. -/
def wordBytes (x : Nat) : List Nat :=
  [x / 2 ^ 56 % 256, x / 2 ^ 48 % 256, x / 2 ^ 40 % 256, x / 2 ^ 32 % 256,
   x / 2 ^ 24 % 256, x / 2 ^ 16 % 256, x / 2 ^ 8 % 256, x % 256]

/-- The 64-byte SHA-512 digest of a byte string. -/
def sha512Bytes (msg : List Nat) : List Nat :=
  let padded := sha512Pad msg
  let s := (chunks128 padded.length padded).foldl processBlock sha512H0
  wordBytes s.a ++ wordBytes s.b ++ wordBytes s.c ++ wordBytes s.d ++
    wordBytes s.e ++ wordBytes s.f ++ wordBytes s.g ++ wordBytes s.h

/-- Lowercase hex character of a value below 16, as produced by `hexdigest()`. -/
def hexDigitChar (n : Nat) : Char := if n < 10 then Char.ofNat (48 + n) else Char.ofNat (87 + n)

/-- Lowercase hex string of a byte list, as produced by `hexdigest()`. -/
def bytesToHex (bs : List Nat) : List Char :=
  bs.flatMap (fun b => [hexDigitChar (b / 16), hexDigitChar (b % 16)])

/-- UTF-8 encoding of one character, as produced by `str.encode('utf-8')`. -/
def utf8EncodeChar (c : Char) : List Nat :=
  let n := c.toNat
  if n < 0x80 then [n]
  else if n < 0x800 then [0xc0 ||| (n >>> 6), 0x80 ||| (n &&& 0x3f)]
  else if n < 0x10000 then
    [0xe0 ||| (n >>> 12), 0x80 ||| ((n >>> 6) &&& 0x3f), 0x80 ||| (n &&& 0x3f)]
  else
    [0xf0 ||| (n >>> 18), 0x80 ||| ((n >>> 12) &&& 0x3f),
     0x80 ||| ((n >>> 6) &&& 0x3f), 0x80 ||| (n &&& 0x3f)]

/-- UTF-8 bytes of a string. -/
def utf8Bytes (s : String) : List Nat := s.data.flatMap utf8EncodeChar

/-- `auth/utils.py` `hash_sha512`: the lowercase-hex SHA-512 digest of the
UTF-8 encoding of `value`. -/
def hash_sha512 (value : String) : String :=
  String.mk (bytesToHex (sha512Bytes (utf8Bytes value)))

/-! ## Data model

`UserRole` and the `user.role` relation follow `examples/django_models.py`;
`ApplicationToken` is the stored token record looked up by
`YartuMCPAuthProvider.load_access_token` (the provider reads `token_hash`,
`user`, `permission` and `expires`; `is_active` and `created_at` are carried
along from the Django model).  `datetime` values are POSIX timestamps
modelled as `Int`. -/

/-- `examples/django_models.py` `UserRole`: capability flags of a role. -/
structure UserRole where
  is_superuser : Bool
  can_write : Bool
  can_admin : Bool
deriving DecidableEq

/-- A Django `User` as read by the auth layer: id, username, own superuser
flag, and the nullable `role` relation added in `examples/django_models.py`. -/
structure DjangoUser where
  id : Int
  username : String
  is_superuser : Bool
  role : Option UserRole
deriving DecidableEq

/-- `examples/django_models.py` `ApplicationToken`: the stored credential
record, with its owning user inlined (the provider fetches it via
`select_related('user').select_related('user__role')`). -/
structure ApplicationToken where
  id : Int
  name : String
  token_hash : String
  user : DjangoUser
  permission : String
  expires : Option Int
  created_at : Int
  is_active : Bool
deriving DecidableEq

/-- `auth/models.py` `ProxmoxMCPToken`: the validated access context returned
by the loader. -/
structure ProxmoxMCPToken where
  client_id : String
  user_id : Option Int
  username : Option String
  permission : Option String
  expires_at : Int
  scopes : Finset String
  token_hash : Option String
  is_superuser : Bool
deriving DecidableEq

/-- `ProxmoxMCPToken.has_scope`. -/
def ProxmoxMCPToken.hasScope (t : ProxmoxMCPToken) (scope : String) : Prop :=
  scope ∈ t.scopes

/-- `ProxmoxMCPToken.has_any_scope`: `bool(self.scopes & scopes)`, i.e. the
intersection is non-empty. -/
def ProxmoxMCPToken.hasAnyScope (t : ProxmoxMCPToken) (scopes : Finset String) : Prop :=
  (t.scopes ∩ scopes).Nonempty

instance (t : ProxmoxMCPToken) (s : String) : Decidable (t.hasScope s) := by
  unfold ProxmoxMCPToken.hasScope; infer_instance

instance (t : ProxmoxMCPToken) (ss : Finset String) : Decidable (t.hasAnyScope ss) := by
  unfold ProxmoxMCPToken.hasAnyScope; infer_instance

/-- `ProxmoxMCPToken.is_expired`, with the evaluation instant
(`datetime.now().timestamp()`) made explicit. -/
def ProxmoxMCPToken.isExpired (t : ProxmoxMCPToken) (now : Int) : Prop :=
  now > t.expires_at

instance (t : ProxmoxMCPToken) (now : Int) : Decidable (t.isExpired now) := by
  unfold ProxmoxMCPToken.isExpired; infer_instance

/-! ## Access token loader (`auth/providers.py`, `YartuMCPAuthProvider`) -/

/-- `YartuMCPAuthProvider.__init__` configuration fields. -/
structure YartuMCPAuthProvider where
  default_scopes : Finset String
  admin_scope : String
  user_scope : String
  write_scope : String

/-- `YartuMCPAuthProvider()` with the constructor's default arguments, as
built by `server_http.py`. -/
def defaultYartuProvider : YartuMCPAuthProvider :=
  ⟨{"user"}, "admin", "user", "write"⟩

/-- `ApplicationToken.objects...get(token_hash=...)`: returns the record iff
exactly one record matches the digest (`DoesNotExist` and
`MultipleObjectsReturned` both end in the provider's `except` arms, which
return `None`). -/
def dbGet (db : List ApplicationToken) (digest : String) : Option ApplicationToken :=
  match db.filter (fun r => r.token_hash == digest) with
  | [r] => some r
  | _ => none

/-- The scope-derivation block of `load_access_token` (providers.py lines
95-105): start from `{user_scope}`; a present role with `is_superuser` adds
admin and write, else `can_write` adds write; with no role, the user's own
`is_superuser` adds admin and write. -/
def YartuMCPAuthProvider.deriveScopes (p : YartuMCPAuthProvider) (user : DjangoUser) :
    Finset String :=
  let s0 : Finset String := {p.user_scope}
  match user.role with
  | some role =>
    if role.is_superuser then insert p.write_scope (insert p.admin_scope s0)
    else if role.can_write then insert p.write_scope s0
    else s0
  | none => if user.is_superuser then s0 ∪ {p.admin_scope, p.write_scope} else s0

/-- `YartuMCPAuthProvider.load_access_token`, with the database contents and
the validation instant (`datetime.now()`) made explicit.  Hash the raw token,
look it up, reject when `expires` is set and `expires <= now`, otherwise build
the `ProxmoxMCPToken`; a missing `expires` yields `expires_at = now + 86400`. -/
def YartuMCPAuthProvider.loadAccessToken (p : YartuMCPAuthProvider)
    (db : List ApplicationToken) (now : Int) (token : String) :
    Option ProxmoxMCPToken :=
  let token_hash := hash_sha512 token
  match dbGet db token_hash with
  | none => none
  | some app_token =>
    match app_token.expires with
    | some e =>
      if e ≤ now then none
      else
        some ⟨"proxmox-mcp", some app_token.user.id, some app_token.user.username,
          some app_token.permission, e, p.deriveScopes app_token.user,
          some token_hash, app_token.user.is_superuser⟩
    | none =>
      some ⟨"proxmox-mcp", some app_token.user.id, some app_token.user.username,
        some app_token.permission, now + 86400, p.deriveScopes app_token.user,
        some token_hash, app_token.user.is_superuser⟩

/-- `YartuMCPAuthProvider.get_required_scopes`: a static classification of
tool names into admin, write, and user tiers. -/
def YartuMCPAuthProvider.getRequiredScopes (p : YartuMCPAuthProvider)
    (toolName : String) : Finset String :=
  let adminTools : List String :=
    ["delete_vm", "create_vm", "reset_vm", "stop_vm", "shutdown_vm"]
  let writeTools : List String :=
    ["start_vm", "execute_vm_command", "create_snapshot", "rollback_snapshot"]
  if toolName ∈ adminTools then {p.admin_scope}
  else if toolName ∈ writeTools then {p.write_scope}
  else {p.user_scope}

/-! ## RBAC middleware (`auth/middleware.py`, `ScopeRBAC`) -/

/-- `ScopeRBAC._get_default_tool_scope_mapping`: the static tool-to-scope
table, as an association list. -/
def defaultToolScopeMapping : List (String × Finset String) :=
  [("delete_vm", {"admin"}), ("create_vm", {"admin"}), ("reset_vm", {"admin"}),
   ("stop_vm", {"admin"}), ("shutdown_vm", {"write"}),
   ("start_vm", {"write"}), ("execute_vm_command", {"write"}),
   ("create_snapshot", {"write"}), ("rollback_snapshot", {"write"}),
   ("get_nodes", {"user"}), ("get_node_status", {"user"}), ("get_vms", {"user"}),
   ("get_containers", {"user"}), ("get_storage", {"user"}),
   ("get_cluster_status", {"user"}), ("get_vm_usage", {"user"}),
   ("health", {"user"})]

/-- `ScopeRBAC.__init__` state. -/
structure ScopeRBAC where
  tool_scope_mapping : List (String × Finset String)
  default_scope : String
  admin_scope : String
  write_scope : String

/-- `ScopeRBAC()` with the constructor's default arguments, as registered by
`server_http.py` `_setup_middleware`. -/
def defaultScopeRBAC : ScopeRBAC :=
  ⟨defaultToolScopeMapping, "user", "admin", "write"⟩

/-- `ScopeRBAC._get_tool_required_scopes`: a non-empty tag list wins
(`if tool_tags:` is false for both `None` and `[]`), then the explicit
mapping, then the single default scope. -/
def ScopeRBAC.getToolRequiredScopes (rbac : ScopeRBAC) (toolName : String)
    (toolTags : Option (List String)) : Finset String :=
  match toolTags with
  | some (t :: ts) => (t :: ts).toFinset
  | _ =>
    match rbac.tool_scope_mapping.lookup toolName with
    | some scopes => scopes
    | none => {rbac.default_scope}

/-- A tool as seen by the middleware: a name and the optional `tags`
attribute (`getattr(tool, 'tags', None)`). -/
structure Tool where
  name : String
  tags : Option (List String)
deriving DecidableEq

/-- `ScopeRBAC.on_list_tools`: without a valid token the result is `[]`;
otherwise keep the tools whose required scopes are empty or intersect the
caller's scopes. -/
def ScopeRBAC.onListTools (rbac : ScopeRBAC) (token : Option ProxmoxMCPToken)
    (tools : List Tool) : List Tool :=
  match token with
  | none => []
  | some t =>
    tools.filter (fun tool =>
      let required := rbac.getToolRequiredScopes tool.name tool.tags
      decide (required = ∅ ∨ t.hasAnyScope required))

/-- Why `ScopeRBAC.on_call_tool` raises `ToolError` instead of forwarding:
no valid token at all (authentication), or non-empty required scopes none of
which the caller holds (authorization, carrying the missing and held
scopes). -/
inductive DenyReason where
  | authRequired : DenyReason
  | insufficientScopes (missing : Finset String) (held : Finset String) : DenyReason
deriving DecidableEq

/-- The tags used by `on_call_tool`'s scope resolution: the looked-up tool's
`tags` attribute when `get_tool` succeeds, `None` when the lookup raises and
the name-only fallback runs. -/
def resolvedTags (toolLookup : Option (Option (List String))) : Option (List String) :=
  match toolLookup with
  | some tags => tags
  | none => none

/-- `ScopeRBAC.on_call_tool`, up to the authorization decision.  `toolLookup`
is the outcome of `ctx.fastmcp_context.fastmcp.get_tool`: `none` when it
raises, `some tags` when it returns a tool carrying `tags`.  A `some` result
is a raised `ToolError` (`call_next` is never invoked); `none` means control
is forwarded to `call_next`. -/
def ScopeRBAC.onCallToolDecision (rbac : ScopeRBAC) (token : Option ProxmoxMCPToken)
    (toolName : String) (toolLookup : Option (Option (List String))) :
    Option DenyReason :=
  match token with
  | none => some .authRequired
  | some t =>
    let required := rbac.getToolRequiredScopes toolName (resolvedTags toolLookup)
    if required.Nonempty ∧ ¬ t.hasAnyScope required then
      some (.insufficientScopes (required \ t.scopes) t.scopes)
    else none

/-! ## Audit middleware and the composed pipeline (`server_http.py`) -/

/-- `AuditMiddleware.__init__` flags. -/
structure AuditMiddleware where
  log_requests : Bool
  log_responses : Bool

/-- `AuditMiddleware(log_requests=True, log_responses=False)` as registered
by `_setup_middleware`. -/
def registeredAudit : AuditMiddleware := ⟨true, false⟩

/-- Outcome of the tool handler itself, once reached. -/
inductive HandlerOutcome where
  | success : HandlerOutcome
  | failure : HandlerOutcome
deriving DecidableEq

/-- Observable trace of one invocation attempt through the composed
middleware: the RBAC denial (if any), whether the handler ran, and how many
audit request records (`AUDIT: ... called tool ...` lines, middleware.py
line 258) were emitted. -/
structure CallToolTrace where
  denied : Option DenyReason
  handlerRan : Bool
  auditRequestRecords : Nat
deriving DecidableEq

/-- The `on_call_tool` pipeline as composed by `_setup_middleware`:
`ScopeRBAC` is added first (outermost), `AuditMiddleware` second, so a
`ToolError` raised by RBAC propagates without ever invoking the audit
middleware; when RBAC forwards, `AuditMiddleware.on_call_tool` emits one
request record (its `log_requests` flag is set) and invokes the handler. -/
def runPipeline (rbac : ScopeRBAC) (audit : AuditMiddleware)
    (token : Option ProxmoxMCPToken) (toolName : String)
    (toolLookup : Option (Option (List String))) (handler : HandlerOutcome) :
    CallToolTrace :=
  match rbac.onCallToolDecision token toolName toolLookup with
  | some reason => ⟨some reason, false, 0⟩
  | none =>
    let records := if audit.log_requests then 1 else 0
    match handler with
    | .success => ⟨none, true, records⟩
    | .failure => ⟨none, true, records⟩

/-! ## Support lemmas -/

/-- A successful association-list lookup returns one of the stored values. -/
theorem lookup_mem_values {α β : Type} [BEq α] [LawfulBEq α] {l : List (α × β)}
    {a : α} {b : β} (h : l.lookup a = some b) : b ∈ l.map Prod.snd := by
  induction l with
  | nil => simp [List.lookup] at h
  | cons p tl ih =>
    cases p with
    | mk k v =>
      by_cases hk : (a == k) = true
      · simp [List.lookup, hk] at h
        simp [h]
      · have hk' : (a == k) = false := by simpa using hk
        simp only [List.lookup, hk'] at h
        exact List.mem_cons_of_mem _ (ih h)

/-- Lookup of a key absent from an association list fails. -/
theorem lookup_eq_none_of_not_mem {α β : Type} [BEq α] [LawfulBEq α]
    {l : List (α × β)} {a : α} (h : a ∉ l.map Prod.fst) : l.lookup a = none := by
  induction l with
  | nil => rfl
  | cons p tl ih =>
    simp only [List.map_cons, List.mem_cons] at h
    push_neg at h
    obtain ⟨h1, h2⟩ := h
    have hk : (a == p.1) = false := beq_eq_false_iff_ne.mpr h1
    cases p
    simp only [List.lookup, hk] at *
    exact ih h2

/-- Hex digest length is twice the byte count. -/
theorem bytesToHex_length (bs : List Nat) : (bytesToHex bs).length = 2 * bs.length := by
  induction bs with
  | nil => rfl
  | cons b tl ih =>
    have hcons : bytesToHex (b :: tl) =
        hexDigitChar (b / 16) :: hexDigitChar (b % 16) :: bytesToHex tl := by
      simp [bytesToHex]
    rw [hcons, List.length_cons, List.length_cons, ih, List.length_cons]
    ring

/-- A SHA-512 digest is 64 bytes long. -/
theorem sha512Bytes_length (msg : List Nat) : (sha512Bytes msg).length = 64 := by
  unfold sha512Bytes
  simp [wordBytes]

/-- Every byte of a serialized word is below 256. -/
theorem wordBytes_lt (x : Nat) : ∀ b ∈ wordBytes x, b < 256 := by
  intro b hb
  fin_cases hb <;> exact Nat.mod_lt _ (by norm_num)

/-- Every byte of a SHA-512 digest is below 256. -/
theorem sha512Bytes_lt (msg : List Nat) : ∀ b ∈ sha512Bytes msg, b < 256 := by
  intro b hb
  unfold sha512Bytes at hb
  simp only [List.mem_append] at hb
  rcases hb with ((((((h | h) | h) | h) | h) | h) | h) | h <;> exact wordBytes_lt _ b h

/-- A character is a lowercase hexadecimal digit: `0`-`9` or `a`-`f`. -/
def isLowerHexDigit (c : Char) : Prop :=
  (48 ≤ c.toNat ∧ c.toNat ≤ 57) ∨ (97 ≤ c.toNat ∧ c.toNat ≤ 102)

instance (c : Char) : Decidable (isLowerHexDigit c) := by
  unfold isLowerHexDigit; infer_instance

/-- The hex character of a value below 16 is a lowercase hex digit. -/
theorem hexDigitChar_isLowerHexDigit {n : Nat} (h : n < 16) :
    isLowerHexDigit (hexDigitChar n) := by
  interval_cases n <;> decide

/-- The required-scope resolution of a default-constructed `ScopeRBAC` never
returns the empty set. -/
theorem default_required_nonempty (toolName : String) (toolTags : Option (List String)) :
    (defaultScopeRBAC.getToolRequiredScopes toolName toolTags).Nonempty := by
  rcases toolTags with _ | (_ | ⟨t, ts⟩)
  case none | some.nil =>
    simp only [ScopeRBAC.getToolRequiredScopes]
    cases h : defaultScopeRBAC.tool_scope_mapping.lookup toolName with
    | none => exact Finset.singleton_nonempty _
    | some s =>
      have hmem := lookup_mem_values h
      have hvals : ∀ v ∈ defaultToolScopeMapping.map Prod.snd,
          (v : Finset String).Nonempty := by decide
      exact hvals s hmem
  case some.cons =>
    exact ⟨t, by simp [ScopeRBAC.getToolRequiredScopes]⟩

/-! ## Claim theorems -/

/-- C9: for every input string, `hash_sha512` is deterministic (equal inputs
give equal outputs) and yields a string of exactly 128 characters, each a
lowercase hexadecimal digit, computed as the SHA-512 digest of the UTF-8
encoding of the input. -/
theorem C9_hash_sha512_deterministic_128_hex (s t : String) :
    (s = t → hash_sha512 s = hash_sha512 t) ∧
    hash_sha512 s = String.mk (bytesToHex (sha512Bytes (utf8Bytes s))) ∧
    (hash_sha512 s).length = 128 ∧
    ∀ c ∈ (hash_sha512 s).data, isLowerHexDigit c := by
  refine ⟨fun h => by rw [h], rfl, ?_, ?_⟩
  · show (String.mk (bytesToHex (sha512Bytes (utf8Bytes s)))).length = 128
    simp [String.length, bytesToHex_length, sha512Bytes_length]
  · intro c hc
    have hc' : c ∈ bytesToHex (sha512Bytes (utf8Bytes s)) := hc
    simp only [bytesToHex, List.mem_flatMap, List.mem_cons, List.not_mem_nil,
      or_false] at hc'
    obtain ⟨b, hb, hcs⟩ := hc'
    have hlt := sha512Bytes_lt _ b hb
    rcases hcs with rfl | rfl
    · exact hexDigitChar_isLowerHexDigit (Nat.div_lt_of_lt_mul (by omega))
    · exact hexDigitChar_isLowerHexDigit (Nat.mod_lt _ (by norm_num))

/-- C9 witness: the theorem instantiated at the concrete input `"abc"`. -/
theorem C9_witness :
    hash_sha512 "abc" = hash_sha512 "abc" ∧ (hash_sha512 "abc").length = 128 :=
  ⟨(C9_hash_sha512_deterministic_128_hex "abc" "abc").1 rfl,
   (C9_hash_sha512_deterministic_128_hex "abc" "abc").2.2.1⟩

/-- C8: for every tool name and every optional tag list, the scope resolution
of a default-constructed `ScopeRBAC` returns a non-empty scope set — a name
absent from the tags and the static table falls through to the single default
scope, never to the empty set. -/
theorem C8_required_scopes_nonempty (toolName : String) (toolTags : Option (List String)) :
    (defaultScopeRBAC.getToolRequiredScopes toolName toolTags).Nonempty :=
  default_required_nonempty toolName toolTags

/-- C1: whenever a caller's scope set is disjoint from the non-empty resolved
required-scope set of a tool, `ScopeRBAC.on_call_tool` raises the
authorization `ToolError` (a `some` decision) and never forwards control to
`call_next`. -/
theorem C1_invoke_denies_on_disjoint_scopes (rbac : ScopeRBAC) (t : ProxmoxMCPToken)
    (toolName : String) (toolLookup : Option (Option (List String)))
    (hne : (rbac.getToolRequiredScopes toolName (resolvedTags toolLookup)).Nonempty)
    (hdisj : Disjoint t.scopes (rbac.getToolRequiredScopes toolName (resolvedTags toolLookup))) :
    rbac.onCallToolDecision (some t) toolName toolLookup =
      some (.insufficientScopes
        (rbac.getToolRequiredScopes toolName (resolvedTags toolLookup) \ t.scopes)
        t.scopes) := by
  have hno : ¬ t.hasAnyScope (rbac.getToolRequiredScopes toolName (resolvedTags toolLookup)) := by
    unfold ProxmoxMCPToken.hasAnyScope
    rw [Finset.not_nonempty_iff_eq_empty, ← Finset.disjoint_iff_inter_eq_empty]
    exact hdisj
  simp only [ScopeRBAC.onCallToolDecision]
  rw [if_pos ⟨hne, hno⟩]

/-- A token holding exactly the baseline `user` scope. -/
def userOnlyToken : ProxmoxMCPToken :=
  ⟨"proxmox-mcp", none, none, none, 0, {"user"}, none, false⟩

/-- C1 witness: a caller holding only `user` invoking `delete_vm`
(which requires `admin`) is denied. -/
theorem C1_witness :
    (defaultScopeRBAC.getToolRequiredScopes "delete_vm" (resolvedTags none)).Nonempty ∧
    defaultScopeRBAC.onCallToolDecision (some userOnlyToken) "delete_vm" none =
      some (.insufficientScopes
        (defaultScopeRBAC.getToolRequiredScopes "delete_vm" (resolvedTags none) \
          userOnlyToken.scopes)
        userOnlyToken.scopes) :=
  ⟨by decide,
   C1_invoke_denies_on_disjoint_scopes defaultScopeRBAC userOnlyToken "delete_vm" none
     (by decide) (by decide)⟩

/-- C6: the list path of the default `ScopeRBAC` returns exactly the tools
whose resolved required-scope set intersects the caller's scope set; a caller
holding exactly `{user}` receives precisely the tools whose required set
contains `user`; with no valid token the result is the empty list. -/
theorem C6_list_path_spec (t : ProxmoxMCPToken) (tools : List Tool) :
    defaultScopeRBAC.onListTools (some t) tools =
      tools.filter (fun tool =>
        decide ((defaultScopeRBAC.getToolRequiredScopes tool.name tool.tags ∩
          t.scopes).Nonempty)) ∧
    defaultScopeRBAC.onListTools none tools = [] ∧
    (t.scopes = {"user"} →
      defaultScopeRBAC.onListTools (some t) tools =
        tools.filter (fun tool =>
          decide ("user" ∈ defaultScopeRBAC.getToolRequiredScopes tool.name tool.tags))) := by
  have hmain : defaultScopeRBAC.onListTools (some t) tools =
      tools.filter (fun tool =>
        decide ((defaultScopeRBAC.getToolRequiredScopes tool.name tool.tags ∩
          t.scopes).Nonempty)) := by
    simp only [ScopeRBAC.onListTools]
    apply List.filter_congr
    intro tool _
    rw [decide_eq_decide]
    have hne := default_required_nonempty tool.name tool.tags
    unfold ProxmoxMCPToken.hasAnyScope
    constructor
    · rintro (h | h)
      · exact absurd h hne.ne_empty
      · rwa [Finset.inter_comm] at h
    · intro h
      exact Or.inr (by rwa [Finset.inter_comm] at h)
  refine ⟨hmain, rfl, fun hs => ?_⟩
  rw [hmain]
  apply List.filter_congr
  intro tool _
  rw [decide_eq_decide, hs, Finset.inter_comm]
  constructor
  · rintro ⟨x, hx⟩
    rw [Finset.mem_inter, Finset.mem_singleton] at hx
    exact hx.1 ▸ hx.2
  · intro hmem
    exact ⟨"user", Finset.mem_inter.mpr ⟨Finset.mem_singleton_self _, hmem⟩⟩

/-- A candidate tool list with one read-only and one admin-only tool. -/
def c6Tools : List Tool := [⟨"get_nodes", none⟩, ⟨"delete_vm", none⟩]

/-- C6 witness: the theorem instantiated for a `{user}`-scoped caller over a
concrete tool list. -/
theorem C6_witness :
    defaultScopeRBAC.onListTools (some userOnlyToken) c6Tools =
      c6Tools.filter (fun tool =>
        decide ("user" ∈ defaultScopeRBAC.getToolRequiredScopes tool.name tool.tags)) :=
  (C6_list_path_spec userOnlyToken c6Tools).2.2 (by decide)

/-- C4 counterexample: at `shutdown_vm` the middleware's default table
requires `write` while the provider's `get_required_scopes` requires `admin`,
so the two embeddings of the default scope policy are not equal as functions
from tool name to scope set. -/
theorem C4_counterexample :
    defaultScopeRBAC.getToolRequiredScopes "shutdown_vm" none = {"write"} ∧
    defaultYartuProvider.getRequiredScopes "shutdown_vm" = {"admin"} ∧
    defaultScopeRBAC.getToolRequiredScopes "shutdown_vm" none ≠
      defaultYartuProvider.getRequiredScopes "shutdown_vm" := by
  refine ⟨by decide, by decide, by decide⟩

/-- C4 (amended): for every tool name other than `shutdown_vm`, the
required-scope set from `ScopeRBAC`'s default table (consulted with no tags)
equals the set from `YartuMCPAuthProvider.get_required_scopes`. -/
theorem C4_default_tables_agree_except_shutdown (toolName : String)
    (h : toolName ≠ "shutdown_vm") :
    defaultScopeRBAC.getToolRequiredScopes toolName none =
      defaultYartuProvider.getRequiredScopes toolName := by
  have hkeys : defaultToolScopeMapping.map Prod.fst =
      ["delete_vm", "create_vm", "reset_vm", "stop_vm", "shutdown_vm",
       "start_vm", "execute_vm_command", "create_snapshot", "rollback_snapshot",
       "get_nodes", "get_node_status", "get_vms", "get_containers", "get_storage",
       "get_cluster_status", "get_vm_usage", "health"] := by rfl
  by_cases hmem : toolName ∈
      (["delete_vm", "create_vm", "reset_vm", "stop_vm", "shutdown_vm",
        "start_vm", "execute_vm_command", "create_snapshot", "rollback_snapshot",
        "get_nodes", "get_node_status", "get_vms", "get_containers", "get_storage",
        "get_cluster_status", "get_vm_usage", "health"] : List String)
  · fin_cases hmem <;> first | (exact absurd rfl h) | decide
  · have hlk : defaultToolScopeMapping.lookup toolName = none :=
      lookup_eq_none_of_not_mem (hkeys ▸ hmem)
    have hadm : toolName ∉
        (["delete_vm", "create_vm", "reset_vm", "stop_vm", "shutdown_vm"] :
          List String) := by
      intro hc
      apply hmem
      fin_cases hc <;> decide
    have hwr : toolName ∉
        (["start_vm", "execute_vm_command", "create_snapshot", "rollback_snapshot"] :
          List String) := by
      intro hc
      apply hmem
      fin_cases hc <;> decide
    show (match defaultToolScopeMapping.lookup toolName with
          | some scopes => scopes
          | none => {defaultScopeRBAC.default_scope}) =
        defaultYartuProvider.getRequiredScopes toolName
    rw [hlk]
    unfold YartuMCPAuthProvider.getRequiredScopes
    rw [if_neg hadm, if_neg hwr]
    rfl

/-- C4 witness: the amended theorem instantiated at `stop_vm`. -/
theorem C4_witness :
    defaultScopeRBAC.getToolRequiredScopes "stop_vm" none =
      defaultYartuProvider.getRequiredScopes "stop_vm" :=
  C4_default_tables_agree_except_shutdown "stop_vm" (by decide)

/-- A principal with no role and no superuser flag. -/
def aliceNoRole : DjangoUser := ⟨7, "alice", false, none⟩

/-- A stored token record whose `is_active` flag is false and which never
expires by time. -/
def inactiveRecord : ApplicationToken :=
  ⟨1, "revoked", hash_sha512 "inactive-tok", aliceNoRole, "read", none, 0, false⟩

/-- C2 (code bug in `load_access_token`): the loader never consults
`is_active`, so a raw token whose digest matches a stored record with
`is_active = false` is accepted (`some` context), while a digest matching no
record yields `none` — the two outcomes are externally distinguishable,
contrary to the documented anti-enumeration behaviour. -/
theorem C2_inactive_token_accepted :
    inactiveRecord.is_active = false ∧
    (defaultYartuProvider.loadAccessToken [inactiveRecord] 1000 "inactive-tok").isSome =
      true ∧
    defaultYartuProvider.loadAccessToken [] 1000 "inactive-tok" = none := by
  refine ⟨rfl, by decide, rfl⟩

/-- A stored token record whose expiry equals the validation instant used in
the C5 theorems. -/
def boundaryRecord : ApplicationToken :=
  ⟨2, "boundary", hash_sha512 "boundary-tok", aliceNoRole, "read", some 1000, 0, true⟩

/-- C5 counterexample: a matched token whose stored expiry equals the
validation instant (so the expiry does not lie in the past) is nevertheless
rejected, because the loader compares with `expires <= now`. -/
theorem C5_counterexample :
    boundaryRecord.expires = some 1000 ∧ ¬ ((1000 : Int) < 1000) ∧
    defaultYartuProvider.loadAccessToken [boundaryRecord] 1000 "boundary-tok" = none := by
  refine ⟨rfl, by decide, by decide⟩

/-- C5 (amended): a matched token is rejected for expiry if and only if its
stored expiry is set and is not later than the validation instant
(`expires <= now`); in particular a past expiry is always rejected regardless
of any other field, and a null expiry is never rejected for expiry. -/
theorem C5_loader_expiry_iff (p : YartuMCPAuthProvider) (db : List ApplicationToken)
    (now : Int) (raw : String) (rec : ApplicationToken)
    (h : dbGet db (hash_sha512 raw) = some rec) :
    (p.loadAccessToken db now raw = none ↔ ∃ e, rec.expires = some e ∧ e ≤ now) := by
  simp only [YartuMCPAuthProvider.loadAccessToken, h]
  cases hx : rec.expires with
  | none => simp [hx]
  | some e =>
    by_cases he : e ≤ now
    · simp [he]
    · simp [he]

/-- C5 witness: the amended theorem instantiated at the boundary record. -/
theorem C5_witness :
    (defaultYartuProvider.loadAccessToken [boundaryRecord] 1000 "boundary-tok" = none ↔
      ∃ e, boundaryRecord.expires = some e ∧ e ≤ 1000) :=
  C5_loader_expiry_iff defaultYartuProvider [boundaryRecord] 1000 "boundary-tok"
    boundaryRecord (by rfl)

/-- The scope derivation of the default provider, written out by cases as the
spec describes it. -/
theorem deriveScopes_default_cases (u : DjangoUser) :
    defaultYartuProvider.deriveScopes u =
      (match u.role with
       | some role =>
         if role.is_superuser then ({"user", "admin", "write"} : Finset String)
         else if role.can_write then {"user", "write"}
         else {"user"}
       | none =>
         if u.is_superuser then ({"user", "admin", "write"} : Finset String)
         else {"user"}) := by
  unfold YartuMCPAuthProvider.deriveScopes defaultYartuProvider
  cases hr : u.role with
  | none => cases hsu : u.is_superuser <;> simp [hsu] <;> decide
  | some role =>
    rcases role with ⟨su, cw, ca⟩
    cases su <;> cases cw <;> simp <;> decide

/-- C7: every successfully validated token carries exactly the scope set
derived from the matched record's principal: baseline `{user}`; a role with
`is_superuser` adds `admin` and `write`; else a role with `can_write` adds
`write`; with no role the principal's own `is_superuser` flag adds both
`admin` and `write`. -/
theorem C7_scope_derivation (db : List ApplicationToken) (now : Int) (raw : String)
    (ctx : ProxmoxMCPToken)
    (h : defaultYartuProvider.loadAccessToken db now raw = some ctx) :
    ∃ rec, dbGet db (hash_sha512 raw) = some rec ∧
      ctx.scopes =
        (match rec.user.role with
         | some role =>
           if role.is_superuser then ({"user", "admin", "write"} : Finset String)
           else if role.can_write then {"user", "write"}
           else {"user"}
         | none =>
           if rec.user.is_superuser then ({"user", "admin", "write"} : Finset String)
           else {"user"}) := by
  cases hdb : dbGet db (hash_sha512 raw) with
  | none => simp [YartuMCPAuthProvider.loadAccessToken, hdb] at h
  | some rec =>
    simp only [YartuMCPAuthProvider.loadAccessToken, hdb] at h
    refine ⟨rec, rfl, ?_⟩
    rw [← deriveScopes_default_cases]
    cases hx : rec.expires with
    | none =>
      simp only [hx] at h
      injection h with h'
      rw [← h']
    | some e =>
      simp only [hx] at h
      by_cases he : e ≤ now
      · rw [if_pos he] at h; cases h
      · rw [if_neg he] at h; injection h with h'; rw [← h']

/-- A role with the superuser flag set. -/
def rootRole : UserRole := ⟨true, false, false⟩

/-- A principal whose role is a superuser role. -/
def bobRoot : DjangoUser := ⟨3, "bob", false, some rootRole⟩

/-- A stored, never-expiring token record owned by `bobRoot`. -/
def rootRecord : ApplicationToken :=
  ⟨3, "root", hash_sha512 "root-tok", bobRoot, "admin", none, 0, true⟩

/-- The access context the loader returns for `rootRecord` at instant 0. -/
def rootCtx : ProxmoxMCPToken :=
  ⟨"proxmox-mcp", some rootRecord.user.id, some rootRecord.user.username,
   some rootRecord.permission, (0 : Int) + 86400,
   defaultYartuProvider.deriveScopes rootRecord.user,
   some (hash_sha512 "root-tok"), rootRecord.user.is_superuser⟩

/-- C7 witness: the theorem instantiated at a concrete superuser-role
record. -/
theorem C7_witness :
    ∃ rec, dbGet [rootRecord] (hash_sha512 "root-tok") = some rec ∧
      rootCtx.scopes =
        (match rec.user.role with
         | some role =>
           if role.is_superuser then ({"user", "admin", "write"} : Finset String)
           else if role.can_write then {"user", "write"}
           else {"user"}
         | none =>
           if rec.user.is_superuser then ({"user", "admin", "write"} : Finset String)
           else {"user"}) :=
  C7_scope_derivation [rootRecord] 0 "root-tok" rootCtx (by rfl)

/-- C10: for every matched record whose stored expiry is null, the loader
returns a context whose `expires_at` is the validation instant plus exactly
86400 seconds, and that context reports itself expired precisely once more
than 24 hours have elapsed. -/
theorem C10_null_expiry_window (db : List ApplicationToken) (now : Int) (raw : String)
    (rec : ApplicationToken) (hdb : dbGet db (hash_sha512 raw) = some rec)
    (hexp : rec.expires = none) :
    ∃ ctx, defaultYartuProvider.loadAccessToken db now raw = some ctx ∧
      ctx.expires_at = now + 86400 ∧
      ∀ t : Int, ctx.isExpired t ↔ now + 86400 < t := by
  refine ⟨⟨"proxmox-mcp", some rec.user.id, some rec.user.username, some rec.permission,
    now + 86400, defaultYartuProvider.deriveScopes rec.user, some (hash_sha512 raw),
    rec.user.is_superuser⟩, ?_, rfl, fun t => Iff.rfl⟩
  simp only [YartuMCPAuthProvider.loadAccessToken, hdb, hexp]

/-- C10 witness: the theorem instantiated at a concrete never-expiring
record and the instant 500. -/
theorem C10_witness :
    ∃ ctx, defaultYartuProvider.loadAccessToken [rootRecord] 500 "root-tok" = some ctx ∧
      ctx.expires_at = 500 + 86400 ∧
      ∀ t : Int, ctx.isExpired t ↔ 500 + 86400 < t :=
  C10_null_expiry_window [rootRecord] 500 "root-tok" rootRecord (by rfl) rfl

/-- C3 counterexample: an invocation attempt denied by authorization (a
`{user}`-scoped caller invoking `delete_vm` through the pipeline as
registered, RBAC first and audit second) emits zero audit request records,
not exactly one. -/
theorem C3_counterexample :
    ((runPipeline defaultScopeRBAC registeredAudit (some userOnlyToken) "delete_vm"
        none .success).denied).isSome = true ∧
    (runPipeline defaultScopeRBAC registeredAudit (some userOnlyToken) "delete_vm"
        none .success).auditRequestRecords = 0 := by
  refine ⟨by decide, by decide⟩

/-- C3 (amended): through the pipeline as registered in `_setup_middleware`
(RBAC outermost, audit inner, `log_requests = True`), an attempt forwarded by
authorization emits exactly one audit request record, and an attempt denied
by authorization emits zero — the denial propagates before the audit
middleware runs. -/
theorem C3_audit_records_by_outcome (token : Option ProxmoxMCPToken) (toolName : String)
    (toolLookup : Option (Option (List String))) (handler : HandlerOutcome) :
    ((runPipeline defaultScopeRBAC registeredAudit token toolName toolLookup
        handler).denied = none →
      (runPipeline defaultScopeRBAC registeredAudit token toolName toolLookup
        handler).auditRequestRecords = 1) ∧
    (∀ r, (runPipeline defaultScopeRBAC registeredAudit token toolName toolLookup
        handler).denied = some r →
      (runPipeline defaultScopeRBAC registeredAudit token toolName toolLookup
        handler).auditRequestRecords = 0) := by
  cases hd : defaultScopeRBAC.onCallToolDecision token toolName toolLookup with
  | some r =>
    constructor
    · intro hc
      simp [runPipeline, hd] at hc
    · intro r' _
      simp [runPipeline, hd]
  | none =>
    constructor
    · intro _
      cases handler <;> simp [runPipeline, hd, registeredAudit]
    · intro r' hc
      cases handler <;> simp [runPipeline, hd] at hc

/-- C3 witness: the amended theorem instantiated at an allowed attempt. -/
theorem C3_witness :
    (runPipeline defaultScopeRBAC registeredAudit (some userOnlyToken) "get_nodes" none
      .success).auditRequestRecords = 1 :=
  (C3_audit_records_by_outcome (some userOnlyToken) "get_nodes" none .success).1
    (by decide)

end ProxmoxMCP
